import Mathlib

/-!
Verification of the data enrichment and metrics aggregation pipeline of the
github-review-analyzer repository (TypeScript), as a shallow embedding.

Modelling conventions:
- JavaScript `Date` values are modelled as natural-number timestamps
  (only ordering and equality of dates is ever used by the code).
- JavaScript strings are Lean `String`s; `String.prototype.includes`,
  `toLowerCase` and `trim` are modelled by executable Lean functions.
- JavaScript numbers are modelled by `JSNum`: an exact rational together
  with the special values NaN and the two infinities. Overflow and binary
  floating point precision are not modelled; none of the verified
  properties depend on them.
- `Record<string, number>` breakdown maps built by incrementing from an
  empty object are modelled as total functions `String -> Nat` with
  default 0 (resp. fixed-field structures when the source object literal
  has a fixed key set).
- The `position` and `path` inline-anchor fields of a comment are omitted
  from the model: no embedded function reads them.
- Asynchronous wrappers (`async`/`await`) are dropped: the embedded code
  performs no interleaving. The GitHub client is passed to `collectComments`
  as a function from PR number to the fetched comment list.
-/

/-- Character-list test: the first list starts with the second list. -/
def charsStartWith : List Char → List Char → Bool
  | _, [] => true
  | [], _ :: _ => false
  | a :: as, b :: bs => a == b && charsStartWith as bs

/-- Character-list test: the second list occurs contiguously in the first. -/
def charsHaveSub : List Char → List Char → Bool
  | [], needle => needle.isEmpty
  | a :: t, needle => charsStartWith (a :: t) needle || charsHaveSub t needle

/-- Model of JavaScript `haystack.includes(needle)` on strings. -/
def jsIncludes (s sub : String) : Bool :=
  charsHaveSub s.data sub.data

/-- Model of JavaScript `toLowerCase` as a character-wise lowering (the
code only lowercases ASCII marker and login text). -/
def jsToLower (s : String) : String :=
  ⟨s.data.map Char.toLower⟩

/-- Model of JavaScript `trim`: drop whitespace from both ends. -/
def jsTrim (s : String) : String :=
  ⟨((s.data.dropWhile Char.isWhitespace).reverse.dropWhile
      Char.isWhitespace).reverse⟩

/-- Model of `src/types/core.ts` `User`. The `type` field is an optional
string at ingestion time (the source defaults it during parsing). -/
structure User where
  login : String
  utype : Option String
  uid : Nat
deriving Repr, DecidableEq

/-- Model of `src/types/core.ts` `Reaction`. The `type` union of marker
names is modelled as a plain string, as the code compares it to string
literals and can store the value `"unknown"` outside the union. -/
structure Reaction where
  rtype : String
  user : User
  createdAt : Nat
deriving Repr, DecidableEq

/-- Model of `src/types/core.ts` `Comment`. `replies` holds comments, so
the type is a nested inductive. `cid` models the source field `id`. -/
inductive Comment where
  | mk (cid : Nat) (body : String) (author : User)
      (createdAt updatedAt : Nat) (isResolved : Bool)
      (reactions : List Reaction) (replies : List Comment)
      (inReplyToId : Option Nat)

/-- Field accessor for the comment id. -/
def Comment.cid : Comment → Nat
  | .mk c _ _ _ _ _ _ _ _ => c

/-- Field accessor for the comment body. -/
def Comment.body : Comment → String
  | .mk _ b _ _ _ _ _ _ _ => b

/-- Field accessor for the comment author. -/
def Comment.author : Comment → User
  | .mk _ _ a _ _ _ _ _ _ => a

/-- Field accessor for the creation timestamp. -/
def Comment.createdAt : Comment → Nat
  | .mk _ _ _ c _ _ _ _ _ => c

/-- Field accessor for the last-update timestamp. -/
def Comment.updatedAt : Comment → Nat
  | .mk _ _ _ _ u _ _ _ _ => u

/-- Field accessor for the computed resolution flag. -/
def Comment.isResolved : Comment → Bool
  | .mk _ _ _ _ _ r _ _ _ => r

/-- Field accessor for the reaction list. -/
def Comment.reactions : Comment → List Reaction
  | .mk _ _ _ _ _ _ r _ _ => r

/-- Field accessor for the reply list. -/
def Comment.replies : Comment → List Comment
  | .mk _ _ _ _ _ _ _ r _ => r

/-- Field accessor for the optional parent comment id. -/
def Comment.inReplyToId : Comment → Option Nat
  | .mk _ _ _ _ _ _ _ _ i => i

/-- Model of `src/types/core.ts` `PullRequest` (fields read by the
embedded functions). -/
structure PullRequest where
  number : Nat
  title : String
  state : String
  createdAt : Nat
  author : User
  comments : List Comment

/-- Model of a JavaScript number: an exact rational, NaN, or one of the
two infinities. Overflow and floating-point precision are not modelled. -/
inductive JSNum where
  | fin : ℚ → JSNum
  | nan : JSNum
  | inf : JSNum
  | negInf : JSNum
deriving Repr, DecidableEq

/-- Model of `src/types/core.ts` `MetricsSummary`. The count fields are
produced by length computations; the average is a JavaScript number. -/
structure MetricsSummary where
  totalPRs : Nat
  totalComments : Nat
  averageCommentsPerPR : JSNum
  positiveReactions : Nat
  negativeReactions : Nat
  repliedComments : Nat
  resolvedComments : Nat
deriving Repr, DecidableEq

/-- Lookup table of `GitHubClient.mapReactionType` in `src/github/index.ts`:
the object literal mapping raw GitHub reaction content strings to the
internal marker names. -/
def reactionTypeMapping : List (String × String) :=
  [("+1", "thumbs_up"), ("-1", "thumbs_down"), ("laugh", "laugh"),
   ("hooray", "hooray"), ("confused", "confused"), ("heart", "heart"),
   ("rocket", "rocket"), ("eyes", "eyes")]

/-- Model of `GitHubClient.mapReactionType` (src/github/index.ts):
`mapping[content] || 'unknown'`. Every value of the literal is a nonempty
string, so the falsy-default is exactly the missing-key default. -/
def mapReactionType (content : String) : String :=
  match reactionTypeMapping.lookup content with
  | some t => t
  | none => "unknown"

/-- Model of `DataCollector.validateReactionType`: keep a type string that
is one of the eight internal marker names, else normalize to unknown. -/
def validateReactionType (t : String) : String :=
  let validTypes : List String :=
    ["thumbs_up", "thumbs_down", "laugh", "hooray", "confused", "heart",
     "rocket", "eyes"]
  if validTypes.contains t then t else "unknown"

/-- Model of `DataCollector.enhanceReactionData`: re-validate each
reaction type and default the user type (Date re-wrapping is identity
in the timestamp model). -/
def enhanceReactionData (reactions : List Reaction) : List Reaction :=
  reactions.map (fun reaction =>
    { reaction with
      rtype := validateReactionType reaction.rtype
      user := { reaction.user with
        utype := some (reaction.user.utype.getD
          (if jsIncludes reaction.user.login "bot" then "Bot" else "User")) } })

/-- Keyword list of `DataCollector.detectResolutionStatus`. -/
def resolutionKeywords : List String :=
  ["resolved", "fixed", "done", "completed", "addressed"]

/-- Model of `DataCollector.detectResolutionStatus` (src/unnamed/part_006,
lines 117 to 146): explicit marker check, then, for edited comments, the
keyword check (returning its result directly), else the two-or-more
positive-typed-reactions check. -/
def detectResolutionStatus (c : Comment) : Bool :=
  if jsIncludes (jsToLower c.body) "[resolved]"
      || jsIncludes (jsToLower c.body) "✅" then
    true
  else if c.createdAt < c.updatedAt then
    resolutionKeywords.any (fun keyword => jsIncludes (jsToLower c.body) keyword)
  else
    2 ≤ (c.reactions.filter (fun reaction =>
      ["thumbs_up", "heart", "hooray", "rocket"].contains reaction.rtype)).length

/-- Bool test used in `buildReplyMap`: the JavaScript truthiness test
`if (comment.inReplyToId)`, which rejects both an absent id and the id 0. -/
def hasTruthyInReplyTo (c : Comment) : Bool :=
  match c.inReplyToId with
  | some p => decide (p ≠ 0)
  | none => false

/-- Bool test: the comment is grouped under parent key `k` by
`buildReplyMap` (truthy parent id equal to `k`). -/
def replyKeyIs (k : Nat) (c : Comment) : Bool :=
  match c.inReplyToId with
  | some p => decide (p ≠ 0) && p == k
  | none => false

/-- Comparison used to sort reply buckets: ascending creation date,
modelling the comparator `a.createdAt.getTime() - b.createdAt.getTime()`. -/
def createdLE (a b : Comment) : Prop :=
  a.createdAt ≤ b.createdAt

instance : DecidableRel createdLE :=
  fun a b => Nat.decLe a.createdAt b.createdAt

instance : IsTotal Comment createdLE :=
  ⟨fun a b => Nat.le_total a.createdAt b.createdAt⟩

instance : IsTrans Comment createdLE :=
  ⟨fun _ _ _ hab hbc => Nat.le_trans hab hbc⟩

/-- Grouping pass of `DataCollector.buildReplyMap` (src/unnamed/part_006,
lines 192 to 214): the `Map<number, Comment[]>` is modelled as a total
function with default empty bucket; each comment passing the JavaScript
truthiness test on `inReplyToId` is appended to its parent bucket in
input order. -/
def replyMapRaw (comments : List Comment) : Nat → List Comment :=
  comments.foldl (fun m c =>
    match c.inReplyToId with
    | some parentId =>
        if parentId ≠ 0 then
          fun k => if k = parentId then m k ++ [c] else m k
        else m
    | none => m) (fun _ => [])

/-- Model of `DataCollector.buildReplyMap`: after grouping, every bucket
is sorted by creation date (the comparison sort of the source is modelled
by insertion sort, which produces a createdAt-sorted permutation of the
bucket). -/
def buildReplyMap (comments : List Comment) : Nat → List Comment :=
  fun k => List.insertionSort createdLE (replyMapRaw comments k)

/-- One comment of `DataCollector.enhanceCommentMetadata`'s loop body:
the enhanced comment keeps every raw field but recomputes `isResolved`
from the raw comment, re-validates the reactions, and attaches the reply
bucket of its id (default empty). -/
def enrichOne (replyMap : Nat → List Comment) (c : Comment) : Comment :=
  match c with
  | .mk cid body author createdAt updatedAt _ reactions _ inReplyToId =>
      .mk cid body author createdAt updatedAt
        (detectResolutionStatus c)
        (enhanceReactionData reactions)
        (replyMap cid)
        inReplyToId

/-- Model of `DataCollector.enhanceCommentMetadata` (src/unnamed/part_006,
lines 86 to 111): build the reply map once for the batch, then enhance
every comment. The catch branch of the source is unreachable in the pure
model (no operation fails). -/
def enhanceCommentMetadata (comments : List Comment) : List Comment :=
  let replyMap := buildReplyMap comments
  comments.map (fun c => enrichOne replyMap c)

/-- Model of `DataCollector.parseCommentMetadata`: trim the login, default
the author type from the raw login, coerce the id (identity on naturals),
and keep the remaining fields (array defaulting is implicit in the list
model). -/
def parseCommentMetadata (c : Comment) : Comment :=
  match c with
  | .mk cid body author createdAt updatedAt isResolved reactions replies inReplyToId =>
      .mk cid body
        { login := jsTrim author.login
          utype := some (author.utype.getD
            (if jsIncludes author.login "bot" then "Bot" else "User"))
          uid := author.uid }
        createdAt updatedAt isResolved reactions replies inReplyToId

/-- Model of `DataCollector.collectComments` (src/unnamed/part_006, lines
40 to 78): for each pull request fetch its comments, parse them, keep the
comments whose author login equals the reviewer name case-insensitively,
enhance that batch, and append it to the accumulated result. The GitHub
client is abstracted as the function `fetched` from PR number to comment
list; the mutation of `pr.comments` is not needed by any verified claim
and is omitted. -/
def collectComments (fetched : Nat → List Comment) (prs : List PullRequest)
    (reviewerUserName : String) : List Comment :=
  prs.foldl (fun allComments pr =>
    let parsedComments := (fetched pr.number).map parseCommentMetadata
    let reviewerComments := parsedComments.filter (fun comment =>
      jsToLower comment.author.login == jsToLower reviewerUserName)
    let enhancedComments := enhanceCommentMetadata reviewerComments
    allComments ++ enhancedComments) []

/-- JavaScript `isNaN` on the number model. -/
def JSNum.isNaN : JSNum → Bool
  | .nan => true
  | _ => false

/-- JavaScript `isFinite` on the number model. -/
def JSNum.isFinite : JSNum → Bool
  | .fin _ => true
  | _ => false

/-- JavaScript strict equality on numbers (NaN is equal to nothing). -/
def JSNum.jsEq : JSNum → JSNum → Bool
  | .fin a, .fin b => decide (a = b)
  | .inf, .inf => true
  | .negInf, .negInf => true
  | _, _ => false

/-- JavaScript `<` on numbers (false whenever an operand is NaN). -/
def JSNum.ltb : JSNum → JSNum → Bool
  | .fin a, .fin b => decide (a < b)
  | .fin _, .inf => true
  | .negInf, .fin _ => true
  | .negInf, .inf => true
  | _, _ => false

/-- JavaScript addition on the number model. -/
def JSNum.add : JSNum → JSNum → JSNum
  | .nan, _ => .nan
  | _, .nan => .nan
  | .fin a, .fin b => .fin (a + b)
  | .fin _, .inf => .inf
  | .inf, .fin _ => .inf
  | .inf, .inf => .inf
  | .fin _, .negInf => .negInf
  | .negInf, .fin _ => .negInf
  | .negInf, .negInf => .negInf
  | .inf, .negInf => .nan
  | .negInf, .inf => .nan

/-- JavaScript multiplication on the number model. -/
def JSNum.mul : JSNum → JSNum → JSNum
  | .nan, _ => .nan
  | _, .nan => .nan
  | .fin a, .fin b => .fin (a * b)
  | .fin a, .inf => if a = 0 then .nan else if 0 < a then .inf else .negInf
  | .inf, .fin b => if b = 0 then .nan else if 0 < b then .inf else .negInf
  | .fin a, .negInf => if a = 0 then .nan else if 0 < a then .negInf else .inf
  | .negInf, .fin b => if b = 0 then .nan else if 0 < b then .negInf else .inf
  | .inf, .inf => .inf
  | .inf, .negInf => .negInf
  | .negInf, .inf => .negInf
  | .negInf, .negInf => .inf

/-- JavaScript division on the number model (division of a nonzero finite
number by zero gives a signed infinity, zero by zero gives NaN). -/
def JSNum.div : JSNum → JSNum → JSNum
  | .nan, _ => .nan
  | _, .nan => .nan
  | .fin a, .fin b =>
      if b = 0 then (if a = 0 then .nan else if 0 < a then .inf else .negInf)
      else .fin (a / b)
  | .fin _, .inf => .fin 0
  | .fin _, .negInf => .fin 0
  | .inf, .fin b => if b < 0 then .negInf else .inf
  | .negInf, .fin b => if b < 0 then .inf else .negInf
  | _, _ => .nan

/-- Model of JavaScript `Math.round` on an exact rational: round half
toward positive infinity. -/
def jsRoundQ (q : ℚ) : ℚ :=
  ((q + 1 / 2).floor : ℤ)

/-- Lift of `Math.round` to the number model (NaN and infinities pass
through, as in JavaScript). -/
def JSNum.jsRound : JSNum → JSNum
  | .fin q => .fin (jsRoundQ q)
  | v => v

/-- Model of `MetricsCalculator.roundToTwoDecimals`:
`Math.round(value * 100) / 100`. -/
def roundToTwoDecimals (value : JSNum) : JSNum :=
  ((value.mul (.fin 100)).jsRound).div (.fin 100)

/-- Model of `MetricsCalculator.handleEdgeCases` (src/unnamed/part_007,
lines 288 to 301): NaN and non-finite values collapse to 0, finite values
are rounded to two decimals. -/
def handleEdgeCases (value : JSNum) : JSNum :=
  if value.isNaN then .fin 0
  else if !value.isFinite then .fin 0
  else roundToTwoDecimals value

/-- Model of `MetricsCalculator.calculatePercentages` (src/unnamed/part_007,
lines 271 to 282). -/
def calculatePercentages (numerator denominator : JSNum) : JSNum :=
  if denominator.jsEq (.fin 0) then .fin 0
  else if numerator.ltb (.fin 0) || denominator.ltb (.fin 0) then .fin 0
  else handleEdgeCases ((numerator.div denominator).mul (.fin 100))

/-- Model of `MetricsCalculator.calculateAverages` (src/unnamed/part_007,
lines 256 to 265): NaN elements are summed as 0, the mean is passed
through the edge-case handler. -/
def calculateAverages (data : List JSNum) : JSNum :=
  if data.isEmpty then .fin 0
  else
    let sum : JSNum := data.foldl (fun acc value =>
      acc.add (if value.isNaN then .fin 0 else value)) (JSNum.fin 0)
    handleEdgeCases (sum.div (.fin (data.length : ℚ)))

/-- Model of `MetricsCalculator.calculateAverageCommentsPerPR`
(src/unnamed/part_007, lines 192 to 199). -/
def calculateAverageCommentsPerPR (totalComments totalPRs : JSNum) : JSNum :=
  if totalPRs.jsEq (.fin 0) then .fin 0
  else roundToTwoDecimals (totalComments.div totalPRs)

/-- Model of `MetricsCalculator.countPullRequests`. -/
def countPullRequests (prs : List PullRequest) : Nat :=
  prs.length

/-- Model of `MetricsCalculator.countComments`. -/
def countComments (comments : List Comment) : Nat :=
  comments.length

/-- Model of `MetricsCalculator.isPositiveReaction`. -/
def isPositiveReaction (t : String) : Bool :=
  ["thumbs_up", "heart", "hooray", "rocket"].contains t

/-- Model of `MetricsCalculator.isNegativeReaction`. -/
def isNegativeReaction (t : String) : Bool :=
  ["thumbs_down", "confused"].contains t

/-- Model of `MetricsCalculator.countReactionsByType` (src/unnamed/part_007,
lines 205 to 226): one pass over every reaction of every comment,
incrementing the positive tally, else the negative tally, else neither. -/
def countReactionsByType (comments : List Comment) : Nat × Nat :=
  comments.foldl (fun acc comment =>
    comment.reactions.foldl (fun acc2 reaction =>
      if isPositiveReaction reaction.rtype then (acc2.1 + 1, acc2.2)
      else if isNegativeReaction reaction.rtype then (acc2.1, acc2.2 + 1)
      else acc2) acc) (0, 0)

/-- Model of `MetricsCalculator.countRepliedComments`. -/
def countRepliedComments (comments : List Comment) : Nat :=
  (comments.filter (fun comment => 0 < comment.replies.length)).length

/-- Model of `MetricsCalculator.countResolvedComments`. -/
def countResolvedComments (comments : List Comment) : Nat :=
  (comments.filter (fun comment => comment.isResolved)).length

/-- Model of `MetricsCalculator.createEmptyMetricsSummary`. -/
def createEmptyMetricsSummary : MetricsSummary :=
  { totalPRs := 0
    totalComments := 0
    averageCommentsPerPR := .fin 0
    positiveReactions := 0
    negativeReactions := 0
    repliedComments := 0
    resolvedComments := 0 }

/-- Model of `MetricsCalculator.calculateSummary` (src/unnamed/part_007,
lines 118 to 151): the all-zero summary for an empty PR list, else the
assembled counts. -/
def calculateSummary (prs : List PullRequest) (comments : List Comment) :
    MetricsSummary :=
  if prs.isEmpty then createEmptyMetricsSummary
  else
    let totalPRs := countPullRequests prs
    let totalComments := countComments comments
    let averageCommentsPerPR := calculateAverageCommentsPerPR
      (.fin (totalComments : ℚ)) (.fin (totalPRs : ℚ))
    let counts := countReactionsByType comments
    { totalPRs := totalPRs
      totalComments := totalComments
      averageCommentsPerPR := averageCommentsPerPR
      positiveReactions := counts.1
      negativeReactions := counts.2
      repliedComments := countRepliedComments comments
      resolvedComments := countResolvedComments comments }

/-- Model of the fixed-key object literal built by
`MetricsCalculator.calculateCommentsByType`. -/
structure CommentsByType where
  with_reactions : Nat
  with_replies : Nat
  resolved : Nat
  unresolved : Nat
deriving Repr, DecidableEq

/-- Model of the fixed-key object literal built by
`MetricsCalculator.calculateCommentsByResolution`. -/
structure CommentsByResolution where
  resolved : Nat
  unresolved : Nat
deriving Repr, DecidableEq

/-- Model of `MetricsCalculator.calculatePRsByState` (src/unnamed/part_007,
lines 345 to 353): the breakdown record as a default-0 counting map. -/
def calculatePRsByState (prs : List PullRequest) : String → Nat :=
  prs.foldl (fun breakdown pr =>
    fun s => if s = pr.state then breakdown s + 1 else breakdown s)
    (fun _ => 0)

/-- Model of `MetricsCalculator.calculatePRsByAuthor` (src/unnamed/part_007,
lines 355 to 364). -/
def calculatePRsByAuthor (prs : List PullRequest) : String → Nat :=
  prs.foldl (fun breakdown pr =>
    fun s => if s = pr.author.login then breakdown s + 1 else breakdown s)
    (fun _ => 0)

/-- Model of `MetricsCalculator.calculateCommentsByType` (src/unnamed/part_007,
lines 366 to 389): each comment increments the reaction facet if it has
reactions, the reply facet if it has replies, and exactly one of the
resolution facets. -/
def calculateCommentsByType (comments : List Comment) : CommentsByType :=
  comments.foldl (fun breakdown comment =>
    let b1 := if 0 < comment.reactions.length then
        { breakdown with with_reactions := breakdown.with_reactions + 1 }
      else breakdown
    let b2 := if 0 < comment.replies.length then
        { b1 with with_replies := b1.with_replies + 1 }
      else b1
    if comment.isResolved then { b2 with resolved := b2.resolved + 1 }
    else { b2 with unresolved := b2.unresolved + 1 })
    { with_reactions := 0, with_replies := 0, resolved := 0, unresolved := 0 }

/-- Model of `MetricsCalculator.calculateCommentsByResolution`
(src/unnamed/part_007, lines 391 to 406). -/
def calculateCommentsByResolution (comments : List Comment) :
    CommentsByResolution :=
  comments.foldl (fun breakdown comment =>
    if comment.isResolved then { breakdown with resolved := breakdown.resolved + 1 }
    else { breakdown with unresolved := breakdown.unresolved + 1 })
    { resolved := 0, unresolved := 0 }

/-- Model of `MetricsCalculator.calculateReactionsByType`
(src/unnamed/part_007, lines 408 to 420). -/
def calculateReactionsByType (comments : List Comment) : String → Nat :=
  comments.foldl (fun breakdown comment =>
    comment.reactions.foldl (fun b reaction =>
      fun s => if s = reaction.rtype then b s + 1 else b s) breakdown)
    (fun _ => 0)

/-- Model of `MetricsCalculator.calculatePositiveVsNegativeReactions`. -/
def calculatePositiveVsNegativeReactions (comments : List Comment) : Nat × Nat :=
  countReactionsByType comments

/-- Model of `src/types/core.ts` `DetailedMetrics` (the PR detail list is
not read by any verified claim and is omitted from the model). -/
structure DetailedMetrics where
  prByState : String → Nat
  prByAuthor : String → Nat
  commentByType : CommentsByType
  commentByResolution : CommentsByResolution
  reactionByType : String → Nat
  positiveVsNegative : Nat × Nat

/-- Model of `MetricsCalculator.calculateDetailed` (src/unnamed/part_007,
lines 156 to 172), restricted to the breakdown maps. -/
def calculateDetailed (prs : List PullRequest) (comments : List Comment) :
    DetailedMetrics :=
  { prByState := calculatePRsByState prs
    prByAuthor := calculatePRsByAuthor prs
    commentByType := calculateCommentsByType comments
    commentByResolution := calculateCommentsByResolution comments
    reactionByType := calculateReactionsByType comments
    positiveVsNegative := calculatePositiveVsNegativeReactions comments }

/-- Modelled from the spec (section 4.2 decision list, as read by claim C1):
first match wins over the rules (1) explicit marker, (2) edited and
keyword, (3) two or more positive-typed reactions. This claimed variant
falls through to rule 3 whenever rule 2 does not match, which is where it
diverges from `detectResolutionStatus`. -/
def detectResolvedClaimed (c : Comment) : Bool :=
  if jsIncludes (jsToLower c.body) "[resolved]"
      || jsIncludes (jsToLower c.body) "✅" then
    true
  else if c.createdAt < c.updatedAt
      && resolutionKeywords.any
        (fun keyword => jsIncludes (jsToLower c.body) keyword) then
    true
  else
    2 ≤ (c.reactions.filter (fun reaction =>
      ["thumbs_up", "heart", "hooray", "rocket"].contains reaction.rtype)).length

/-- Modelled from the spec (section 4.5, as read by claim C3): the
percentage as `(n/d)*100` rounded to one decimal place, with the zero and
negative guards of the source. -/
def percentageSpecOneDecimal (n d : ℚ) : ℚ :=
  if d = 0 then 0
  else if n < 0 ∨ d < 0 then 0
  else jsRoundQ (n / d * 100 * 10) / 10

/-- Rounding a finite number to two decimals stays finite and is the
rational two-decimal rounding. -/
theorem roundToTwoDecimals_fin (q : ℚ) :
    roundToTwoDecimals (.fin q) = .fin (jsRoundQ (q * 100) / 100) := by
  simp [roundToTwoDecimals, JSNum.mul, JSNum.jsRound, JSNum.div]

/-- The edge-case handler on a finite value performs two-decimal rounding. -/
theorem handleEdgeCases_fin (q : ℚ) :
    handleEdgeCases (.fin q) = .fin (jsRoundQ (q * 100) / 100) := by
  simp [handleEdgeCases, JSNum.isNaN, JSNum.isFinite, roundToTwoDecimals_fin]

/-- The edge-case handler always produces a finite value. -/
theorem handleEdgeCases_isFinite (v : JSNum) :
    (handleEdgeCases v).isFinite = true := by
  cases v with
  | fin q => rw [handleEdgeCases_fin]; rfl
  | nan => rfl
  | inf => rfl
  | negInf => rfl

/-- The per-PR average is finite for finite inputs. -/
theorem calculateAverageCommentsPerPR_fin_isFinite (c p : ℚ) :
    (calculateAverageCommentsPerPR (.fin c) (.fin p)).isFinite = true := by
  unfold calculateAverageCommentsPerPR
  by_cases hp : p = 0
  · simp [JSNum.jsEq, hp, JSNum.isFinite]
  · simp [JSNum.jsEq, hp, JSNum.div, roundToTwoDecimals_fin, JSNum.isFinite]

/-- Claim C5: reaction classification is a pure function on the raw marker
string with the eight known mappings, and every other input string maps to
the unknown kind (never dropped). -/
theorem mapReactionType_classification :
    mapReactionType "+1" = "thumbs_up" ∧ mapReactionType "-1" = "thumbs_down" ∧
    mapReactionType "laugh" = "laugh" ∧ mapReactionType "hooray" = "hooray" ∧
    mapReactionType "confused" = "confused" ∧ mapReactionType "heart" = "heart" ∧
    mapReactionType "rocket" = "rocket" ∧ mapReactionType "eyes" = "eyes" ∧
    ∀ content : String,
      content ∉ ["+1", "-1", "laugh", "hooray", "confused", "heart",
        "rocket", "eyes"] →
      mapReactionType content = "unknown" := by
  refine ⟨rfl, rfl, rfl, rfl, rfl, rfl, rfl, rfl, ?_⟩
  intro content h
  simp only [List.mem_cons, List.not_mem_nil, or_false, not_or] at h
  obtain ⟨h1, h2, h3, h4, h5, h6, h7, h8⟩ := h
  simp [mapReactionType, reactionTypeMapping, List.lookup,
    beq_eq_false_iff_ne.mpr h1, beq_eq_false_iff_ne.mpr h2,
    beq_eq_false_iff_ne.mpr h3, beq_eq_false_iff_ne.mpr h4,
    beq_eq_false_iff_ne.mpr h5, beq_eq_false_iff_ne.mpr h6,
    beq_eq_false_iff_ne.mpr h7, beq_eq_false_iff_ne.mpr h8]

/-- Witness for claim C5 at the concrete unknown marker string. -/
theorem mapReactionType_classification_witness :
    ("bogus" : String) ∉ ["+1", "-1", "laugh", "hooray", "confused", "heart",
      "rocket", "eyes"] ∧ mapReactionType "bogus" = "unknown" :=
  ⟨by decide,
   mapReactionType_classification.2.2.2.2.2.2.2.2 "bogus" (by decide)⟩

/-- Claim C8: for every comment list, `calculateSummary` on an empty PR
list returns the all-zero summary (every field 0) and, being a total Lean
function, never raises. -/
theorem calculateSummary_empty_prs (comments : List Comment) :
    calculateSummary [] comments = createEmptyMetricsSummary ∧
    createEmptyMetricsSummary.totalPRs = 0 ∧
    createEmptyMetricsSummary.totalComments = 0 ∧
    createEmptyMetricsSummary.averageCommentsPerPR = .fin 0 ∧
    createEmptyMetricsSummary.positiveReactions = 0 ∧
    createEmptyMetricsSummary.negativeReactions = 0 ∧
    createEmptyMetricsSummary.repliedComments = 0 ∧
    createEmptyMetricsSummary.resolvedComments = 0 :=
  ⟨rfl, rfl, rfl, rfl, rfl, rfl, rfl, rfl⟩

/-- Claim C9: every numeric value the aggregator returns is finite; NaN
and the infinities are collapsed to 0 by the edge-case handler before
being returned (the count fields of the summary are naturals by
construction and are finite a fortiori). -/
theorem aggregator_never_emits_nonfinite :
    (∀ value : JSNum, (handleEdgeCases value).isFinite = true) ∧
    handleEdgeCases .nan = .fin 0 ∧
    handleEdgeCases .inf = .fin 0 ∧
    handleEdgeCases .negInf = .fin 0 ∧
    (∀ numerator denominator : JSNum,
      (calculatePercentages numerator denominator).isFinite = true) ∧
    (∀ data : List JSNum, (calculateAverages data).isFinite = true) ∧
    (∀ (prs : List PullRequest) (comments : List Comment),
      ((calculateSummary prs comments).averageCommentsPerPR).isFinite = true) := by
  refine ⟨handleEdgeCases_isFinite, rfl, rfl, rfl, ?_, ?_, ?_⟩
  · intro numerator denominator
    unfold calculatePercentages
    split
    · rfl
    · split
      · rfl
      · exact handleEdgeCases_isFinite _
  · intro data
    unfold calculateAverages
    split
    · rfl
    · exact handleEdgeCases_isFinite _
  · intro prs comments
    unfold calculateSummary
    split
    · rfl
    · exact calculateAverageCommentsPerPR_fin_isFinite _ _

/-- Claim C3 (amended): for all finite numbers, the percentage is
`(n/d)*100` rounded to TWO decimal places (`Math.round(x*100)/100`), 0
when the denominator is 0 (for every numerator, NaN and infinite ones
included), and 0 when either operand is negative; `percentage(50, 200)`
is exactly 25. -/
theorem calculatePercentages_characterization :
    (∀ n d : ℚ, calculatePercentages (.fin n) (.fin d) =
      .fin (if d = 0 then 0 else if n < 0 ∨ d < 0 then 0
        else jsRoundQ (n / d * 100 * 100) / 100)) ∧
    (∀ v : JSNum, calculatePercentages v (.fin 0) = .fin 0) ∧
    calculatePercentages (.fin 50) (.fin 200) = .fin 25 := by
  refine ⟨?_, ?_,
    by norm_num [calculatePercentages, JSNum.jsEq, JSNum.ltb, JSNum.div,
      JSNum.mul, handleEdgeCases_fin, jsRoundQ, Rat.floor]⟩
  · intro n d
    unfold calculatePercentages
    by_cases hd : d = 0
    · simp [JSNum.jsEq, hd]
    · by_cases hneg : n < 0 ∨ d < 0
      · rcases hneg with hn | hdn
        · simp [JSNum.jsEq, JSNum.ltb, hd, hn]
        · simp [JSNum.jsEq, JSNum.ltb, hd, hdn]
      · push_neg at hneg
        simp [JSNum.jsEq, JSNum.ltb, hd, not_lt.mpr hneg.1, not_lt.mpr hneg.2,
          JSNum.div, JSNum.mul, handleEdgeCases_fin,
          if_neg (by simpa using fun hn => absurd hn (not_lt.mpr hneg.1)),
          hneg.1, hneg.2]
  · intro v
    unfold calculatePercentages
    simp [JSNum.jsEq]

/-- Counterexample for claim C3: at `(n, d) = (1, 3)` the source result
(two-decimal rounding, 33.33) differs from the one-decimal rounding the
claim states (33.3). -/
theorem calculatePercentages_ne_one_decimal :
    calculatePercentages (.fin 1) (.fin 3) ≠ .fin (percentageSpecOneDecimal 1 3) := by
  norm_num [calculatePercentages, percentageSpecOneDecimal, JSNum.jsEq,
    JSNum.ltb, JSNum.div, JSNum.mul, handleEdgeCases_fin, jsRoundQ, Rat.floor,
    JSNum.fin.injEq]

/-- Claim C1 (amended): resolution detection returns the result of the
first matching rule in this order: (1) resolved if the lower-cased body
contains an explicit marker; (2) if `updatedAt` is strictly later than
`createdAt`, the result is exactly whether the lower-cased body contains
a resolution keyword — reactions are never consulted for edited comments;
(3) otherwise resolved if and only if the comment has 2 or more
positive-typed reactions; (4) else unresolved. -/
theorem detectResolutionStatus_rules (c : Comment) :
    detectResolutionStatus c = true ↔
      ((jsIncludes (jsToLower c.body) "[resolved]" = true ∨
        jsIncludes (jsToLower c.body) "✅" = true) ∨
       (c.createdAt < c.updatedAt ∧
        (resolutionKeywords.any
          (fun keyword => jsIncludes (jsToLower c.body) keyword)) = true) ∨
       (¬ c.createdAt < c.updatedAt ∧
        2 ≤ (c.reactions.filter (fun reaction =>
          (["thumbs_up", "heart", "hooray", "rocket"].contains
            reaction.rtype))).length)) := by
  unfold detectResolutionStatus
  by_cases hm : (jsIncludes (jsToLower c.body) "[resolved]"
      || jsIncludes (jsToLower c.body) "✅") = true
  · rw [if_pos hm]
    simp only [true_iff]
    exact Or.inl (by simpa using hm)
  · rw [if_neg hm]
    have hnm : ¬ (jsIncludes (jsToLower c.body) "[resolved]" = true ∨
        jsIncludes (jsToLower c.body) "✅" = true) := by
      simpa using hm
    by_cases he : c.createdAt < c.updatedAt
    · rw [if_pos he]
      simp [he, hnm]
    · rw [if_neg he]
      simp [he, hnm]

/-- Witness for claim C1 at a concrete comment: edited body containing the
keyword addressed is detected as resolved. -/
theorem detectResolutionStatus_rules_witness :
    detectResolutionStatus
      (.mk 9 "Addressed in commit abc123" ⟨"alice", some "User", 1⟩
        0 1 false [] [] none) = true :=
  (detectResolutionStatus_rules _).mpr (Or.inr (Or.inl ⟨by decide, by decide⟩))

/-- Example user for the concrete counterexamples. -/
def userEx : User :=
  { login := "alice", utype := some "User", uid := 1 }

/-- Example thumbs-up reaction (already-normalized marker name). -/
def thumbsUpEx : Reaction :=
  { rtype := "thumbs_up", user := userEx, createdAt := 0 }

/-- Edited comment without resolution keywords but with two positive-typed
reactions: the source leaves it unresolved, the claimed rule list resolves
it. -/
def cEx1 : Comment :=
  .mk 1 "ok" userEx 0 1 false [thumbsUpEx, thumbsUpEx] [] none

/-- Counterexample for claim C1: on `cEx1` (edited, no keyword, two
positive reactions) the source detector answers unresolved while the
claimed first-match rule list answers resolved. -/
theorem detectResolutionStatus_ne_claimed_rules :
    detectResolutionStatus cEx1 = false ∧ detectResolvedClaimed cEx1 = true := by
  decide

/-- A positive-classified reaction type is never negative-classified. -/
theorem isPositiveReaction_not_negative (t : String) :
    isPositiveReaction t = true → isNegativeReaction t = false := by
  intro h
  have ht : t ∈ ["thumbs_up", "heart", "hooray", "rocket"] := by
    simpa [isPositiveReaction] using h
  fin_cases ht <;> rfl

/-- Inner loop of `countReactionsByType`: folding one reaction list adds
the positive and negative filter counts to the accumulator. -/
theorem countReactions_inner (rs : List Reaction) (a b : Nat) :
    rs.foldl (fun acc2 reaction =>
        if isPositiveReaction reaction.rtype then (acc2.1 + 1, acc2.2)
        else if isNegativeReaction reaction.rtype then (acc2.1, acc2.2 + 1)
        else acc2) (a, b) =
      (a + (rs.filter (fun r => isPositiveReaction r.rtype)).length,
       b + (rs.filter (fun r => isNegativeReaction r.rtype)).length) := by
  induction rs generalizing a b with
  | nil => simp
  | cons r rs ih =>
    by_cases hp : isPositiveReaction r.rtype = true
    · have hn := isPositiveReaction_not_negative r.rtype hp
      simp [List.foldl_cons, hp, hn, ih, Nat.add_comm, Nat.add_assoc,
        Nat.add_left_comm]
    · by_cases hn : isNegativeReaction r.rtype = true
      · simp [List.foldl_cons, hp, hn, ih, Nat.add_comm, Nat.add_assoc,
          Nat.add_left_comm]
      · simp [List.foldl_cons, hp, hn, ih]

/-- Outer loop of `countReactionsByType` over the comment list. -/
theorem countReactions_outer (cs : List Comment) (a b : Nat) :
    cs.foldl (fun acc comment =>
        comment.reactions.foldl (fun acc2 reaction =>
          if isPositiveReaction reaction.rtype then (acc2.1 + 1, acc2.2)
          else if isNegativeReaction reaction.rtype then (acc2.1, acc2.2 + 1)
          else acc2) acc) (a, b) =
      (a + (((cs.map Comment.reactions).flatten).filter
        (fun r => isPositiveReaction r.rtype)).length,
       b + (((cs.map Comment.reactions).flatten).filter
        (fun r => isNegativeReaction r.rtype)).length) := by
  induction cs generalizing a b with
  | nil => simp
  | cons c cs ih =>
    simp [List.foldl_cons, countReactions_inner, ih, Nat.add_assoc]

/-- Comment with three positive reactions, for the per-reaction tally. -/
def cEx6 : Comment :=
  .mk 6 "ok" userEx 0 0 false [thumbsUpEx, thumbsUpEx, thumbsUpEx] [] none

/-- Claim C6: the summary reaction tallies count individual reactions
across all comments - positive means a type in the thumbs-up, heart,
hooray, rocket set, negative a type in the thumbs-down, confused set,
all other types (laugh, eyes, unknown included) count toward neither,
and a single comment with 3 positive reactions contributes 3. The summary
fields expose exactly these tallies whenever the PR list is non-empty
(an empty PR list short-circuits to the all-zero summary). -/
theorem reaction_tallies_count_individual_reactions :
    (∀ cs : List Comment, countReactionsByType cs =
      ((((cs.map Comment.reactions).flatten).filter
          (fun r => isPositiveReaction r.rtype)).length,
       (((cs.map Comment.reactions).flatten).filter
          (fun r => isNegativeReaction r.rtype)).length)) ∧
    (∀ t : String, isPositiveReaction t = true ↔
      t ∈ ["thumbs_up", "heart", "hooray", "rocket"]) ∧
    (∀ t : String, isNegativeReaction t = true ↔
      t ∈ ["thumbs_down", "confused"]) ∧
    isPositiveReaction "laugh" = false ∧ isNegativeReaction "laugh" = false ∧
    isPositiveReaction "eyes" = false ∧ isNegativeReaction "eyes" = false ∧
    isPositiveReaction "unknown" = false ∧ isNegativeReaction "unknown" = false ∧
    (∀ (prs : List PullRequest) (cs : List Comment), prs ≠ [] →
      (calculateSummary prs cs).positiveReactions = (countReactionsByType cs).1 ∧
      (calculateSummary prs cs).negativeReactions = (countReactionsByType cs).2) ∧
    countReactionsByType [cEx6] = (3, 0) := by
  refine ⟨?_, ?_, ?_, rfl, rfl, rfl, rfl, rfl, rfl, ?_, by decide⟩
  · intro cs
    unfold countReactionsByType
    simpa using countReactions_outer cs 0 0
  · intro t
    simp [isPositiveReaction]
  · intro t
    simp [isNegativeReaction]
  · intro prs cs hprs
    unfold calculateSummary
    rw [if_neg (by simpa using hprs)]
    exact ⟨rfl, rfl⟩

/-- Example pull request for concrete instantiations. -/
def prEx : PullRequest :=
  { number := 1, title := "t", state := "open", createdAt := 0,
    author := userEx, comments := [] }

/-- Witness for claim C6 at a concrete non-empty PR list. -/
theorem reaction_tallies_witness :
    ([prEx] ≠ ([] : List PullRequest)) ∧
    (calculateSummary [prEx] [cEx6]).positiveReactions =
      (countReactionsByType [cEx6]).1 :=
  ⟨List.cons_ne_nil _ _,
   (reaction_tallies_count_individual_reactions.2.2.2.2.2.2.2.2.2.1
     [prEx] [cEx6] (List.cons_ne_nil _ _)).1⟩

/-- Pointwise value of the by-state breakdown map: the count of PRs in
that state. -/
theorem calculatePRsByState_eq_count (prs : List PullRequest) (s : String) :
    calculatePRsByState prs s = (prs.map PullRequest.state).count s := by
  suffices h : ∀ (l : List PullRequest) (f : String → Nat),
      (l.foldl (fun breakdown pr =>
        fun t => if t = pr.state then breakdown t + 1 else breakdown t) f) s =
      f s + (l.map PullRequest.state).count s by
    simpa using h prs (fun _ => 0)
  intro l
  induction l with
  | nil => intro f; simp
  | cons pr t ih =>
    intro f
    rw [List.foldl_cons, ih]
    by_cases h : s = pr.state
    · simp [h, List.count_cons, Nat.add_comm, Nat.add_assoc, Nat.add_left_comm]
    · simp [h, List.count_cons_of_ne h]

/-- Pointwise value of the by-author breakdown map: the count of PRs with
that author login. -/
theorem calculatePRsByAuthor_eq_count (prs : List PullRequest) (s : String) :
    calculatePRsByAuthor prs s =
      (prs.map (fun pr => pr.author.login)).count s := by
  suffices h : ∀ (l : List PullRequest) (f : String → Nat),
      (l.foldl (fun breakdown pr =>
        fun t => if t = pr.author.login then breakdown t + 1 else breakdown t) f) s =
      f s + (l.map (fun pr => pr.author.login)).count s by
    simpa using h prs (fun _ => 0)
  intro l
  induction l with
  | nil => intro f; simp
  | cons pr t ih =>
    intro f
    rw [List.foldl_cons, ih]
    by_cases h : s = pr.author.login
    · simp [h, List.count_cons, Nat.add_comm, Nat.add_assoc, Nat.add_left_comm]
    · simp [h, List.count_cons_of_ne h]

/-- Field characterization of the comment facet breakdown. -/
theorem calculateCommentsByType_eq (cs : List Comment) :
    calculateCommentsByType cs =
      { with_reactions := cs.countP (fun c => decide (0 < c.reactions.length))
        with_replies := cs.countP (fun c => decide (0 < c.replies.length))
        resolved := cs.countP (fun c => c.isResolved)
        unresolved := cs.countP (fun c => !c.isResolved) } := by
  suffices h : ∀ (l : List Comment) (b : CommentsByType),
      l.foldl (fun breakdown comment =>
        let b1 := if 0 < comment.reactions.length then
            { breakdown with with_reactions := breakdown.with_reactions + 1 }
          else breakdown
        let b2 := if 0 < comment.replies.length then
            { b1 with with_replies := b1.with_replies + 1 }
          else b1
        if comment.isResolved then { b2 with resolved := b2.resolved + 1 }
        else { b2 with unresolved := b2.unresolved + 1 }) b =
      { with_reactions :=
          b.with_reactions + l.countP (fun c => decide (0 < c.reactions.length))
        with_replies :=
          b.with_replies + l.countP (fun c => decide (0 < c.replies.length))
        resolved := b.resolved + l.countP (fun c => c.isResolved)
        unresolved := b.unresolved + l.countP (fun c => !c.isResolved) } by
    simpa [calculateCommentsByType] using h cs
      { with_reactions := 0, with_replies := 0, resolved := 0, unresolved := 0 }
  intro l
  induction l with
  | nil => intro b; simp
  | cons c t ih =>
    intro b
    rw [List.foldl_cons, ih]
    by_cases h1 : 0 < c.reactions.length <;>
      by_cases h2 : 0 < c.replies.length <;>
      by_cases h3 : c.isResolved = true <;>
      simp [h1, h2, h3, List.countP_cons, Nat.add_comm, Nat.add_assoc,
        Nat.add_left_comm]

/-- Field characterization of the resolution breakdown. -/
theorem calculateCommentsByResolution_eq (cs : List Comment) :
    calculateCommentsByResolution cs =
      { resolved := cs.countP (fun c => c.isResolved)
        unresolved := cs.countP (fun c => !c.isResolved) } := by
  suffices h : ∀ (l : List Comment) (b : CommentsByResolution),
      l.foldl (fun breakdown comment =>
        if comment.isResolved then
          { breakdown with resolved := breakdown.resolved + 1 }
        else { breakdown with unresolved := breakdown.unresolved + 1 }) b =
      { resolved := b.resolved + l.countP (fun c => c.isResolved)
        unresolved := b.unresolved + l.countP (fun c => !c.isResolved) } by
    simpa [calculateCommentsByResolution] using h cs { resolved := 0, unresolved := 0 }
  intro l
  induction l with
  | nil => intro b; simp
  | cons c t ih =>
    intro b
    rw [List.foldl_cons, ih]
    by_cases h3 : c.isResolved = true <;>
      simp [h3, List.countP_cons, Nat.add_comm, Nat.add_assoc, Nat.add_left_comm]

/-- The resolved and unresolved tallies split the comment count. -/
theorem countP_isResolved_split (cs : List Comment) :
    cs.countP (fun c => c.isResolved) + cs.countP (fun c => !c.isResolved) =
      cs.length := by
  induction cs with
  | nil => rfl
  | cons c t ih =>
    by_cases h : c.isResolved = true <;>
      simp [List.countP_cons, h, ← ih] <;> omega

/-- Pointwise value of the reaction-kind breakdown map: the count of
reactions of that type across all comments. -/
theorem calculateReactionsByType_eq_count (cs : List Comment) (s : String) :
    calculateReactionsByType cs s =
      (((cs.map Comment.reactions).flatten).map Reaction.rtype).count s := by
  have inner : ∀ (rs : List Reaction) (f : String → Nat),
      (rs.foldl (fun b reaction =>
        fun t => if t = reaction.rtype then b t + 1 else b t) f) s =
      f s + (rs.map Reaction.rtype).count s := by
    intro rs
    induction rs with
    | nil => intro f; simp
    | cons r t ih =>
      intro f
      rw [List.foldl_cons, ih]
      by_cases h : s = r.rtype
      · simp [h, List.count_cons, Nat.add_comm, Nat.add_assoc, Nat.add_left_comm]
      · simp [h, List.count_cons_of_ne h]
  suffices h : ∀ (l : List Comment) (f : String → Nat),
      (l.foldl (fun breakdown comment =>
        comment.reactions.foldl (fun b reaction =>
          fun t => if t = reaction.rtype then b t + 1 else b t) breakdown) f) s =
      f s + (((l.map Comment.reactions).flatten).map Reaction.rtype).count s by
    simpa [calculateReactionsByType] using h cs (fun _ => 0)
  intro l
  induction l with
  | nil => intro f; simp
  | cons c t ih =>
    intro f
    rw [List.foldl_cons, ih, inner]
    simp [Nat.add_assoc]

/-- Claim C2 (amended): the by-state and by-author PR maps sum to
totalPRs, the by-resolution map sums to totalComments, and within the
comment facet map the resolved and unresolved entries sum to
totalComments; the reaction-kind map sums to the total number of
reactions. The facet map as a whole does NOT sum to totalComments: its
with_reactions and with_replies entries are independent boolean facets
that additionally count comments already counted by the resolution
facets. -/
theorem breakdown_map_sums (prs : List PullRequest) (cs : List Comment) :
    (((prs.map PullRequest.state).dedup).map (calculatePRsByState prs)).sum =
      countPullRequests prs ∧
    (((prs.map (fun pr => pr.author.login)).dedup).map
      (calculatePRsByAuthor prs)).sum = countPullRequests prs ∧
    (calculateCommentsByResolution cs).resolved +
      (calculateCommentsByResolution cs).unresolved = countComments cs ∧
    (calculateCommentsByType cs).resolved +
      (calculateCommentsByType cs).unresolved = countComments cs ∧
    ((((cs.map Comment.reactions).flatten).map Reaction.rtype).dedup.map
      (calculateReactionsByType cs)).sum =
      ((cs.map Comment.reactions).flatten).length := by
  refine ⟨?_, ?_, ?_, ?_, ?_⟩
  · rw [funext (calculatePRsByState_eq_count prs),
      List.sum_map_count_dedup_eq_length, List.length_map]
    rfl
  · rw [funext (calculatePRsByAuthor_eq_count prs),
      List.sum_map_count_dedup_eq_length, List.length_map]
    rfl
  · rw [calculateCommentsByResolution_eq]
    exact countP_isResolved_split cs
  · rw [calculateCommentsByType_eq]
    exact countP_isResolved_split cs
  · rw [funext (calculateReactionsByType_eq_count cs),
      List.sum_map_count_dedup_eq_length, List.length_map]

/-- Comment with one reaction and no replies, unresolved: it lands in the
with_reactions facet and the unresolved facet at once. -/
def cEx2 : Comment :=
  .mk 2 "ok" userEx 0 0 false [thumbsUpEx] [] none

/-- Counterexample for claim C2: on the single-comment batch `cEx2` the
comment facet map values sum to 2, not to the comment total 1. -/
theorem byType_sum_ne_total_comments :
    (calculateCommentsByType [cEx2]).with_reactions +
      (calculateCommentsByType [cEx2]).with_replies +
      (calculateCommentsByType [cEx2]).resolved +
      (calculateCommentsByType [cEx2]).unresolved ≠ countComments [cEx2] := by
  decide

/-- The grouping pass puts under key `k` exactly the comments whose
truthy parent id is `k`, in input order. -/
theorem replyMapRaw_eq (cs : List Comment) (k : Nat) :
    replyMapRaw cs k = cs.filter (replyKeyIs k) := by
  suffices h : ∀ (l : List Comment) (m : Nat → List Comment),
      (l.foldl (fun m c =>
        match c.inReplyToId with
        | some parentId =>
            if parentId ≠ 0 then
              fun j => if j = parentId then m j ++ [c] else m j
            else m
        | none => m) m) k = m k ++ l.filter (replyKeyIs k) by
    simpa [replyMapRaw] using h cs (fun _ => [])
  intro l
  induction l with
  | nil => intro m; simp
  | cons c t ih =>
    intro m
    rw [List.foldl_cons, ih]
    cases hc : c.inReplyToId with
    | none => simp [List.filter_cons, replyKeyIs, hc]
    | some p =>
      by_cases hp : p = 0
      · subst hp
        simp [List.filter_cons, replyKeyIs, hc]
      · by_cases hk : k = p
        · subst hk
          simp [List.filter_cons, replyKeyIs, hc, hp]
        · simp [List.filter_cons, replyKeyIs, hc, hp, hk,
            beq_eq_false_iff_ne.mpr (fun h => hk h.symm)]

/-- Every reply bucket is a permutation of the matching-parent filter of
the batch. -/
theorem buildReplyMap_perm (cs : List Comment) (k : Nat) :
    (buildReplyMap cs k).Perm (cs.filter (replyKeyIs k)) := by
  unfold buildReplyMap
  rw [replyMapRaw_eq]
  exact List.perm_insertionSort createdLE _

/-- Membership in a reply bucket forces membership in the batch with the
matching nonzero parent id. -/
theorem mem_buildReplyMap {cs : List Comment} {k : Nat} {c : Comment}
    (h : c ∈ buildReplyMap cs k) :
    c ∈ cs ∧ c.inReplyToId = some k ∧ k ≠ 0 := by
  have h2 : c ∈ cs.filter (replyKeyIs k) := (buildReplyMap_perm cs k).mem_iff.mp h
  have h3 := List.mem_filter.mp h2
  refine ⟨h3.1, ?_⟩
  have h4 := h3.2
  unfold replyKeyIs at h4
  cases hc : c.inReplyToId with
  | none => rw [hc] at h4; exact absurd h4 (by simp)
  | some p =>
    rw [hc] at h4
    simp only [Bool.and_eq_true, decide_eq_true_eq, beq_iff_eq] at h4
    rcases h4 with ⟨hp0, hpk⟩
    subst hpk
    exact ⟨rfl, hp0⟩

/-- The matching-parent filter length is the parent-id multiplicity among
the truthy parent ids of the batch. -/
theorem filter_replyKey_length (cs : List Comment) (k : Nat) :
    (cs.filter (replyKeyIs k)).length =
      ((cs.filterMap Comment.inReplyToId).filter
        (fun p => decide (p ≠ 0))).count k := by
  induction cs with
  | nil => rfl
  | cons c t ih =>
    cases hc : c.inReplyToId with
    | none => simp [List.filter_cons, List.filterMap_cons, replyKeyIs, hc, ih]
    | some p =>
      by_cases hp : p = 0
      · subst hp
        simp [List.filter_cons, List.filterMap_cons, replyKeyIs, hc, ih]
      · by_cases hk : k = p
        · subst hk
          simp [List.filter_cons, List.filterMap_cons, replyKeyIs, hc, hp, ih,
            List.count_cons]
        · simp [List.filter_cons, List.filterMap_cons, replyKeyIs, hc, hp, ih,
            List.count_cons, beq_eq_false_iff_ne.mpr (fun h => hk h.symm),
            beq_eq_false_iff_ne.mpr hk]

/-- The truthy parent-id list has one entry per comment passing the
truthiness test. -/
theorem truthy_parent_ids_length (cs : List Comment) :
    ((cs.filterMap Comment.inReplyToId).filter
      (fun p => decide (p ≠ 0))).length = cs.countP hasTruthyInReplyTo := by
  induction cs with
  | nil => rfl
  | cons c t ih =>
    simp only [decide_not] at ih
    cases hc : c.inReplyToId with
    | none =>
      simp [List.filterMap_cons, List.countP_cons, hasTruthyInReplyTo, hc, ih]
    | some p =>
      by_cases hp : p = 0
      · subst hp
        simp [List.filterMap_cons, List.countP_cons, hasTruthyInReplyTo, hc, ih]
      · simp [List.filterMap_cons, List.filter_cons, List.countP_cons,
          hasTruthyInReplyTo, hc, hp, ih]

/-- The enriched comments carry exactly the reply buckets of their ids. -/
theorem enhance_replies_eq (cs : List Comment) :
    (enhanceCommentMetadata cs).map Comment.replies =
      cs.map (fun c => buildReplyMap cs c.cid) := by
  unfold enhanceCommentMetadata
  rw [List.map_map]
  have h : (Comment.replies ∘ fun c => enrichOne (buildReplyMap cs) c) =
      fun c => buildReplyMap cs c.cid := by
    funext c
    cases c
    rfl
  rw [h]

/-- Claim C7 (amended): each reply bucket holds exactly the comments whose
`inReplyToId` is set to that nonzero key (the JavaScript truthiness test
drops an `inReplyToId` equal to 0), sorted by `createdAt` ascending;
comments without a truthy `inReplyToId` appear in no bucket; enrichment
attaches to every comment the bucket of its own id (empty when it has no
children); and the bucket sizes summed over the distinct truthy parent
ids equal the number of comments with a truthy `inReplyToId`. -/
theorem reply_map_characterization (cs : List Comment) (k : Nat) :
    (buildReplyMap cs k).Perm (cs.filter (replyKeyIs k)) ∧
    List.Sorted createdLE (buildReplyMap cs k) ∧
    (∀ c : Comment, c ∈ buildReplyMap cs k →
      c ∈ cs ∧ c.inReplyToId = some k ∧ k ≠ 0) ∧
    (enhanceCommentMetadata cs).map Comment.replies =
      cs.map (fun c => buildReplyMap cs c.cid) ∧
    ((((cs.filterMap Comment.inReplyToId).filter
        (fun p => decide (p ≠ 0))).dedup).map
      (fun p => (buildReplyMap cs p).length)).sum =
      cs.countP hasTruthyInReplyTo := by
  refine ⟨buildReplyMap_perm cs k, ?_, fun c h => mem_buildReplyMap h,
    enhance_replies_eq cs, ?_⟩
  · unfold buildReplyMap
    exact List.sorted_insertionSort createdLE _
  · have hpt : (fun p => (buildReplyMap cs p).length) =
        fun p => ((cs.filterMap Comment.inReplyToId).filter
          (fun q => decide (q ≠ 0))).count p := by
      funext p
      rw [(buildReplyMap_perm cs p).length_eq, filter_replyKey_length]
    rw [hpt, List.sum_map_count_dedup_eq_length, truthy_parent_ids_length]

/-- Comment whose `inReplyToId` is the number 0: set, but falsy in
JavaScript. -/
def cEx7 : Comment :=
  .mk 5 "ok" userEx 0 0 false [] [] (some 0)

/-- Counterexample for claim C7: with the batch `[cEx7]` the bucket under
key 0 misses the one comment whose `inReplyToId` equals 0, and the total
bucket size 0 differs from the count 1 of comments with `inReplyToId`
set. -/
theorem replyMap_drops_zero_parent :
    (buildReplyMap [cEx7] 0).length = 0 ∧
    ([cEx7].filter (fun c => c.inReplyToId == some 0)).length = 1 ∧
    [cEx7].countP (fun c => c.inReplyToId.isSome) = 1 := by
  decide

/-- Parent comment for the reply-bucket witness. -/
def cEx7parent : Comment :=
  .mk 1 "p" userEx 0 0 false [] [] none

/-- Child comment replying to id 1 for the reply-bucket witness. -/
def cEx7child : Comment :=
  .mk 2 "c" userEx 1 1 false [] [] (some 1)

/-- Witness for claim C7 at a concrete two-comment batch. -/
theorem reply_map_characterization_witness :
    cEx7child ∈ buildReplyMap [cEx7parent, cEx7child] 1 ∧
    (cEx7child ∈ [cEx7parent, cEx7child] ∧
      cEx7child.inReplyToId = some 1 ∧ (1 : Nat) ≠ 0) := by
  have hb : buildReplyMap [cEx7parent, cEx7child] 1 = [cEx7child] := rfl
  have hmem : cEx7child ∈ buildReplyMap [cEx7parent, cEx7child] 1 := by
    rw [hb]
    exact List.mem_singleton_self _
  exact ⟨hmem,
    (reply_map_characterization [cEx7parent, cEx7child] 1).2.2.1 cEx7child hmem⟩

/-- The enriched comment flags are exactly the detector results on the
raw input comments. -/
theorem enhance_isResolved_eq (cs : List Comment) :
    (enhanceCommentMetadata cs).map Comment.isResolved =
      cs.map detectResolutionStatus := by
  unfold enhanceCommentMetadata
  rw [List.map_map]
  have h : (Comment.isResolved ∘ fun c => enrichOne (buildReplyMap cs) c) =
      detectResolutionStatus := by
    funext c
    cases c
    rfl
  rw [h]

/-- Claim C4 (amended): within `enhanceCommentMetadata`, resolution
detection runs on each comment's incoming reaction list (the reaction
type strings as produced upstream by the GitHub client's classifier at
fetch time); rule 3 counts reactions whose type string is one of the
normalized names thumbs_up, heart, hooray and rocket, so a comment with
two or more reactions already carrying a positive normalized kind and
matching no earlier rule is marked resolved. Raw unclassified markers
such as "+1" are not re-normalized before detection inside `enrich`. -/
theorem enrich_resolution_uses_incoming_reactions :
    (∀ cs : List Comment, (enhanceCommentMetadata cs).map Comment.isResolved =
      cs.map detectResolutionStatus) ∧
    (∀ c : Comment,
      jsIncludes (jsToLower c.body) "[resolved]" = false →
      jsIncludes (jsToLower c.body) "✅" = false →
      c.updatedAt ≤ c.createdAt →
      2 ≤ (c.reactions.filter (fun reaction =>
        (["thumbs_up", "heart", "hooray", "rocket"].contains
          reaction.rtype))).length →
      detectResolutionStatus c = true) := by
  refine ⟨enhance_isResolved_eq, ?_⟩
  intro c h1 h2 hle hlen
  unfold detectResolutionStatus
  rw [if_neg (by simp [h1, h2]), if_neg (by omega)]
  exact decide_eq_true hlen

/-- Comment with two thumbs-up reactions of normalized kind and no other
resolution signal, for the witness. -/
def cEx4w : Comment :=
  .mk 41 "ok" userEx 3 3 false [thumbsUpEx, thumbsUpEx] [] none

/-- Witness for claim C4 at the concrete comment with two normalized
positive reactions. -/
theorem enrich_resolution_uses_incoming_reactions_witness :
    jsIncludes (jsToLower cEx4w.body) "[resolved]" = false ∧
    jsIncludes (jsToLower cEx4w.body) "✅" = false ∧
    cEx4w.updatedAt ≤ cEx4w.createdAt ∧
    2 ≤ (cEx4w.reactions.filter (fun reaction =>
      (["thumbs_up", "heart", "hooray", "rocket"].contains
        reaction.rtype))).length ∧
    detectResolutionStatus cEx4w = true :=
  ⟨by decide, by decide, by decide, by decide,
   enrich_resolution_uses_incoming_reactions.2 cEx4w
     (by decide) (by decide) (by decide) (by decide)⟩

/-- Reaction carrying the raw GitHub marker, not yet classified. -/
def plusOneEx : Reaction :=
  { rtype := "+1", user := userEx, createdAt := 0 }

/-- Comment whose two reactions carry the raw marker "+1" (which the
classifier maps to the positive kind thumbs_up) and which matches no
earlier resolution rule. -/
def cEx4 : Comment :=
  .mk 4 "ok" userEx 5 5 false [plusOneEx, plusOneEx] [] none

/-- Counterexample for claim C4: the classifier rates "+1" positive, yet
enrichment leaves `cEx4` unresolved, because resolution detection inside
`enrich` never normalizes the raw markers first. -/
theorem enrich_does_not_classify_before_detection :
    mapReactionType "+1" = "thumbs_up" ∧
    isPositiveReaction "thumbs_up" = true ∧
    (enhanceCommentMetadata [cEx4]).map Comment.isResolved = [false] := by
  decide

/-- The enriched comment keeps the bucket of its id as its reply list. -/
theorem enrichOne_replies (m : Nat → List Comment) (c : Comment) :
    (enrichOne m c).replies = m c.cid := by
  cases c
  rfl

/-- Membership in an accumulate-by-append fold decomposes into the
initial segment or one of the appended batches. -/
theorem foldl_append_mem {α β : Type} (f : β → List α) :
    ∀ (l : List β) (init : List α) (x : α),
      x ∈ l.foldl (fun acc b => acc ++ f b) init →
      x ∈ init ∨ ∃ b ∈ l, x ∈ f b := by
  intro l
  induction l with
  | nil => intro init x h; exact Or.inl h
  | cons b t ih =>
    intro init x h
    rw [List.foldl_cons] at h
    rcases ih _ x h with h1 | ⟨b', hb', hx⟩
    · rcases List.mem_append.mp h1 with h2 | h2
      · exact Or.inl h2
      · exact Or.inr ⟨b, List.mem_cons_self b t, h2⟩
    · exact Or.inr ⟨b', List.mem_cons_of_mem b hb', hx⟩

/-- Claim C10: every comment appearing in any collected comment's reply
list is authored by the analyzed reviewer, case-insensitively: the batch
is filtered to the reviewer's comments before the reply map is built, so
a reply by any other user never populates a reply list (and hence never
contributes to the replied-comment count). -/
theorem replies_only_from_reviewer
    (fetched : Nat → List Comment) (prs : List PullRequest)
    (reviewerUserName : String) (c r : Comment)
    (hc : c ∈ collectComments fetched prs reviewerUserName)
    (hr : r ∈ c.replies) :
    jsToLower r.author.login = jsToLower reviewerUserName := by
  have hc2 : c ∈ prs.foldl (fun acc pr => acc ++ enhanceCommentMetadata
      (((fetched pr.number).map parseCommentMetadata).filter
        (fun comment =>
          jsToLower comment.author.login == jsToLower reviewerUserName))) [] :=
    hc
  rcases foldl_append_mem _ prs [] c hc2 with h0 | ⟨pr, _, hcb⟩
  · exact absurd h0 (List.not_mem_nil c)
  · set batch := ((fetched pr.number).map parseCommentMetadata).filter
      (fun comment =>
        jsToLower comment.author.login == jsToLower reviewerUserName) with hbatch
    unfold enhanceCommentMetadata at hcb
    rcases List.mem_map.mp hcb with ⟨c0, _, rfl⟩
    rw [enrichOne_replies] at hr
    have hrb : r ∈ batch := (mem_buildReplyMap hr).1
    have hfilter := (List.mem_filter.mp hrb).2
    exact eq_of_beq hfilter

/-- Reviewer identity with mixed-case login for the collection witness. -/
def revUserEx : User :=
  { login := "Rev", utype := some "User", uid := 7 }

/-- Raw top-level comment by the reviewer. -/
def cParentEx : Comment :=
  .mk 1 "p" revUserEx 0 0 false [] [] none

/-- Raw reply comment by the reviewer answering comment id 1. -/
def cChildEx : Comment :=
  .mk 2 "c" revUserEx 1 1 false [] [] (some 1)

/-- Concrete GitHub client stub returning the two raw comments. -/
def fetchedEx : Nat → List Comment :=
  fun _ => [cParentEx, cChildEx]

/-- Pull request for the collection witness. -/
def prEx10 : PullRequest :=
  { number := 1, title := "t", state := "open", createdAt := 0,
    author := revUserEx, comments := [] }

/-- Parsed form of the raw parent comment. -/
def parsedParentEx : Comment :=
  parseCommentMetadata cParentEx

/-- Parsed form of the raw child comment. -/
def parsedChildEx : Comment :=
  parseCommentMetadata cChildEx

/-- Enriched parent comment as produced by the collection pipeline. -/
def enrichedParentEx : Comment :=
  enrichOne (buildReplyMap [parsedParentEx, parsedChildEx]) parsedParentEx

/-- Witness for claim C10 at a concrete two-comment collection run with
reviewer name "rev" matching login "Rev" case-insensitively. -/
theorem replies_only_from_reviewer_witness :
    enrichedParentEx ∈ collectComments fetchedEx [prEx10] "rev" ∧
    parsedChildEx ∈ enrichedParentEx.replies ∧
    jsToLower parsedChildEx.author.login = jsToLower "rev" := by
  have he : collectComments fetchedEx [prEx10] "rev" =
      [enrichedParentEx,
       enrichOne (buildReplyMap [parsedParentEx, parsedChildEx]) parsedChildEx] :=
    rfl
  have h1 : enrichedParentEx ∈ collectComments fetchedEx [prEx10] "rev" := by
    rw [he]
    exact List.mem_cons_self _ _
  have h2 : parsedChildEx ∈ enrichedParentEx.replies := by
    have hr : enrichedParentEx.replies = [parsedChildEx] := rfl
    rw [hr]
    exact List.mem_singleton_self _
  exact ⟨h1, h2, replies_only_from_reviewer fetchedEx [prEx10] "rev"
    enrichedParentEx parsedChildEx h1 h2⟩
